import Mathlib

/-!
Shallow embedding of the Kokoro TTS pipeline of this repository:
the TTS provider (src/providers/kokoro_tts_provider.py), the Speak
connector (src/actions/speak/connector/kokoro_tts.py) and the Greeting
connector
(src/actions/greeting_conversation/connector/greeting_conversation_kokoro.py).

Modelling conventions:
* Python strings are `String`, Python ints are `Int`, optional values are
  `Option`, wall-clock times and float durations are `ℚ`.
* The backend `AudioOutputLiveStream` is modelled as a record carrying its
  construction parameters, a started flag and its pending-request queue; a
  `sid : Nat` field models Python object identity (every freshly constructed
  stream gets a new `sid`, so `sid` equality is object identity).
* External collaborators (the IO provider's `llm_prompt`, the conversation
  state machine's result dicts, wall-clock `time.time()`) are passed to each
  operation as explicit arguments.
* Side effects that leave the connector (pub/sub publishes, conversation
  history writes) are reported in an explicit effect value returned next to
  the new state.
-/

/-- String literal constants of the source (collected here because the
embedding refers to them repeatedly). -/
def kokoroBaseUrl : String := "http://127.0.0.1:8880/v1"

def voiceBella : String := "af_bella"

def modelKokoro : String := "kokoro"

def fmtPcm : String := "pcm"

def fmtWav : String := "wav"

def voiceMarker : String := "INPUT: Voice"

def ttsEnabledText : String := "TTS Enabled"

def ttsDisabledText : String := "TTS Disabled"

/-- The dict produced by `KokoroTTSProvider.create_pending_message`. -/
structure PendingMsg where
  text : String
  voice_id : String
  model_id : String
  output_format : String
  deriving DecidableEq, Repr

/-- The backend audio stream (`om1_speech.AudioOutputLiveStream`), modelled
by its construction parameters plus the observable state the provider uses:
a started flag and the `_pending_requests` queue.  `sid` models Python
object identity of the stream. -/
structure AudioOutputLiveStream where
  sid : Nat
  _url : String
  tts_model : String
  tts_voice : String
  response_format : String
  rate : Int
  api_key : Option String
  enable_tts_interrupt : Bool
  started : Bool
  _pending_requests : List PendingMsg
  deriving DecidableEq, Repr

/-- Constructing `AudioOutputLiveStream(...)`: a fresh stream, not started,
with an empty queue. -/
def AudioOutputLiveStream.make (sid : Nat) (url : String) (tts_model : String)
    (tts_voice : String) (response_format : String) (rate : Int)
    (api_key : Option String) (enable_tts_interrupt : Bool) :
    AudioOutputLiveStream :=
  { sid := sid
    _url := url
    tts_model := tts_model
    tts_voice := tts_voice
    response_format := response_format
    rate := rate
    api_key := api_key
    enable_tts_interrupt := enable_tts_interrupt
    started := false
    _pending_requests := [] }

def AudioOutputLiveStream.start (s : AudioOutputLiveStream) :
    AudioOutputLiveStream :=
  { s with started := true }

def AudioOutputLiveStream.stop (s : AudioOutputLiveStream) :
    AudioOutputLiveStream :=
  { s with started := false }

def AudioOutputLiveStream.add_request (s : AudioOutputLiveStream)
    (m : PendingMsg) : AudioOutputLiveStream :=
  { s with _pending_requests := s._pending_requests ++ [m] }

/-- `KokoroTTSProvider` state: `api_key`, the `running` flag, the backend
stream and the four stored TTS parameters (the sample rate is NOT stored on
the provider itself, exactly as in the source). -/
structure KokoroTTSProvider where
  api_key : Option String
  running : Bool
  _audio_stream : AudioOutputLiveStream
  _voice_id : String
  _model_id : String
  _output_format : String
  _enable_tts_interrupt : Bool
  deriving DecidableEq, Repr

/-- `KokoroTTSProvider.__init__`. -/
def KokoroTTSProvider.init (url : String) (api_key : Option String)
    (voice_id : String) (model_id : String) (output_format : String)
    (rate : Int) (enable_tts_interrupt : Bool) : KokoroTTSProvider :=
  { api_key := api_key
    running := false
    _audio_stream := AudioOutputLiveStream.make 0 url model_id voice_id
      output_format rate api_key enable_tts_interrupt
    _voice_id := voice_id
    _model_id := model_id
    _output_format := output_format
    _enable_tts_interrupt := enable_tts_interrupt }

/-- `KokoroTTSProvider.start`: no-op when already running, otherwise sets
`running` and starts the stream. -/
def KokoroTTSProvider.start (p : KokoroTTSProvider) : KokoroTTSProvider :=
  if p.running then p
  else { p with running := true, _audio_stream := p._audio_stream.start }

/-- `KokoroTTSProvider.stop`: no-op when not running, otherwise clears
`running` and stops the stream. -/
def KokoroTTSProvider.stop (p : KokoroTTSProvider) : KokoroTTSProvider :=
  if p.running = false then p
  else { p with running := false, _audio_stream := p._audio_stream.stop }

/-- The `restart_needed` expression computed inside
`KokoroTTSProvider.configure` (lines 108 to 115): note that `rate` is not
among the compared fields. -/
def restartNeeded (p : KokoroTTSProvider) (url : String)
    (api_key : Option String) (voice_id : String) (model_id : String)
    (output_format : String) (enable_tts_interrupt : Bool) : Prop :=
  url ≠ p._audio_stream._url ∨ api_key ≠ p.api_key ∨
  voice_id ≠ p._voice_id ∨ model_id ≠ p._model_id ∨
  output_format ≠ p._output_format ∨
  enable_tts_interrupt ≠ p._enable_tts_interrupt

instance instDecRestartNeeded (p : KokoroTTSProvider) (url : String)
    (api_key : Option String) (voice_id : String) (model_id : String)
    (output_format : String) (enable_tts_interrupt : Bool) :
    Decidable (restartNeeded p url api_key voice_id model_id output_format
      enable_tts_interrupt) := by
  unfold restartNeeded
  exact inferInstance

/-- `KokoroTTSProvider.configure`: returns unchanged when `restart_needed`
is false; otherwise stops if running, stores the new parameters, constructs
a fresh backend stream from them and starts that stream (the provider
`running` flag is NOT set back to true by the source). -/
def KokoroTTSProvider.configure (p : KokoroTTSProvider) (url : String)
    (api_key : Option String) (voice_id : String) (model_id : String)
    (output_format : String) (rate : Int) (enable_tts_interrupt : Bool) :
    KokoroTTSProvider :=
  if restartNeeded p url api_key voice_id model_id output_format
      enable_tts_interrupt then
    let p1 := if p.running then p.stop else p
    let s := AudioOutputLiveStream.make (p._audio_stream.sid + 1) url
      model_id voice_id output_format rate api_key enable_tts_interrupt
    { p1 with
      api_key := api_key
      _voice_id := voice_id
      _model_id := model_id
      _output_format := output_format
      _enable_tts_interrupt := enable_tts_interrupt
      _audio_stream := s.start }
  else p

/-- `KokoroTTSProvider.create_pending_message`: pure construction of the
request dict from the current configuration. -/
def KokoroTTSProvider.create_pending_message (p : KokoroTTSProvider)
    (text : String) : PendingMsg :=
  { text := text
    voice_id := p._voice_id
    model_id := p._model_id
    output_format := p._output_format }

/-- The `Union[str, dict]` argument of `add_pending_message`. -/
inductive TTSMessage where
  | text (s : String)
  | dict (m : PendingMsg)
  deriving DecidableEq, Repr

/-- `KokoroTTSProvider.add_pending_message`: drops the message (returning
the provider unchanged) when not running; otherwise converts raw text via
`create_pending_message` and enqueues onto the backend stream. -/
def KokoroTTSProvider.add_pending_message (p : KokoroTTSProvider)
    (message : TTSMessage) : KokoroTTSProvider :=
  if p.running = false then p
  else
    let m := match message with
      | TTSMessage.text s => p.create_pending_message s
      | TTSMessage.dict m => m
    { p with _audio_stream := p._audio_stream.add_request m }

/-- `KokoroTTSProvider.get_pending_message_count`: queue depth of the
backend stream. -/
def KokoroTTSProvider.get_pending_message_count (p : KokoroTTSProvider) :
    Nat :=
  p._audio_stream._pending_requests.length

/-- Substring containment used by the connector
(`"INPUT: Voice" in self.io_provider.llm_prompt`). -/
def containsVoiceMarker (p : String) : Bool :=
  decide (voiceMarker.data <:+: p.data)

/-- `llm_prompt is not None and "INPUT: Voice" not in llm_prompt`. -/
def promptIsNonVoice : Option String → Bool
  | none => false
  | some p => !(containsVoiceMarker p)

/-- `llm_prompt is not None and "INPUT: Voice" in llm_prompt`. -/
def promptIsVoice : Option String → Bool
  | none => false
  | some p => containsVoiceMarker p

/-- Construction-time configuration of both connectors
(`SpeakKokoroTTSConfig`). -/
structure SpeakKokoroTTSConfig where
  voice_id : String
  model_id : String
  output_format : String
  rate : Int
  enable_tts_interrupt : Bool
  silence_rate : Int
  deriving DecidableEq, Repr

def defaultSpeakKokoroTTSConfig : SpeakKokoroTTSConfig :=
  { voice_id := voiceBella
    model_id := modelKokoro
    output_format := fmtPcm
    rate := 24000
    enable_tts_interrupt := false
    silence_rate := 0 }

/-- `SpeakKokoroTTSConnector` state relevant to the claims: the silence
policy fields, the administrative `tts_enabled` flag, whether a Zenoh audio
publisher is available (`audio_pub` non-null), and the owned TTS provider. -/
structure SpeakKokoroTTSConnector where
  silence_rate : Int
  silence_counter : Int
  tts_enabled : Bool
  audio_pub : Bool
  tts : KokoroTTSProvider
  deriving DecidableEq, Repr

/-- `SpeakKokoroTTSConnector.__init__`: silence_counter starts at 0,
`tts_enabled` at true; the provider is constructed, started, then
configured with the same parameters (a no-op configure for a fresh
provider).  The Python singleton aliasing of the provider is not modelled:
the connector owns a fresh provider. -/
def SpeakKokoroTTSConnector.init (config : SpeakKokoroTTSConfig)
    (api_key : Option String) (audio_pub : Bool) : SpeakKokoroTTSConnector :=
  let tts0 := KokoroTTSProvider.init kokoroBaseUrl api_key config.voice_id
    config.model_id config.output_format config.rate
    config.enable_tts_interrupt
  let tts1 := tts0.start
  let tts2 := tts1.configure kokoroBaseUrl api_key config.voice_id
    config.model_id config.output_format config.rate
    config.enable_tts_interrupt
  { silence_rate := config.silence_rate
    silence_counter := 0
    tts_enabled := true
    audio_pub := audio_pub
    tts := tts2 }

/-- Observable effect of one `connect()` call: dropped because TTS is
disabled, skipped by the silence policy, or accepted — in which case
exactly one pending message was created, `storedToHistory` records whether
the conversation-history collaborator was written, and `published` whether
the message left via the audio publisher (true) or the direct
`add_pending_message` fallback (false). -/
inductive ConnectEffect where
  | disabled
  | skipped
  | accepted (msg : PendingMsg) (storedToHistory : Bool) (published : Bool)
  deriving DecidableEq, Repr

/-- `SpeakKokoroTTSConnector.connect` (lines 179 to 227): the per-request
state machine.  `llm_prompt` is the IO provider's current prompt at the
time of the call. -/
def SpeakKokoroTTSConnector.connect (c : SpeakKokoroTTSConnector)
    (llm_prompt : Option String) (action : String) :
    SpeakKokoroTTSConnector × ConnectEffect :=
  if c.tts_enabled = false then (c, ConnectEffect.disabled)
  else if c.silence_rate > 0 ∧ c.silence_counter < c.silence_rate ∧
      promptIsNonVoice llm_prompt = true then
    ({ c with silence_counter := c.silence_counter + 1 },
      ConnectEffect.skipped)
  else
    let c1 := { c with silence_counter := 0 }
    let pending_message := c1.tts.create_pending_message action
    let stored := promptIsVoice llm_prompt
    if c1.audio_pub then
      (c1, ConnectEffect.accepted pending_message stored true)
    else
      ({ c1 with
          tts := c1.tts.add_pending_message
            (TTSMessage.dict pending_message) },
        ConnectEffect.accepted pending_message stored false)

/-- Message headers (`prepare_header(frame_id)` from zenoh_msgs): modelled
by the frame identifier they carry. -/
structure Header where
  frame_id : String
  deriving DecidableEq, Repr

def prepare_header (frame_id : String) : Header :=
  { frame_id := frame_id }

structure TTSStatusRequest where
  header : Header
  request_id : String
  code : Int
  deriving DecidableEq, Repr

structure TTSStatusResponse where
  header : Header
  request_id : String
  code : Int
  status : String
  deriving DecidableEq, Repr

/-- `SpeakKokoroTTSConnector._zenoh_tts_status_request` (lines 229 to 286):
returns the new connector state and the response published on the response
topic (`none` when the handler falls through every recognised code). -/
def SpeakKokoroTTSConnector.zenoh_tts_status_request
    (c : SpeakKokoroTTSConnector) (req : TTSStatusRequest) :
    SpeakKokoroTTSConnector × Option TTSStatusResponse :=
  if req.code = 2 then
    let resp : TTSStatusResponse :=
      { header := prepare_header req.header.frame_id
        request_id := req.request_id
        code := if c.tts_enabled then 1 else 0
        status := if c.tts_enabled then ttsEnabledText else ttsDisabledText }
    (c, some resp)
  else if req.code = 1 then
    let resp : TTSStatusResponse :=
      { header := prepare_header req.header.frame_id
        request_id := req.request_id
        code := 1
        status := ttsEnabledText }
    ({ c with tts_enabled := true }, some resp)
  else if req.code = 0 then
    let resp : TTSStatusResponse :=
      { header := prepare_header req.header.frame_id
        request_id := req.request_id
        code := 0
        status := ttsDisabledText }
    ({ c with tts_enabled := false }, some resp)
  else (c, none)

/-- Modelled from the spec: the `ConversationState` enum of
`providers.greeting_conversation_state_provider`, whose defining file is
not under src/ (only this connector imports it).  The spec describes it as
"an enum {CONVERSING, FINISHED, …}"; a plain Python `Enum` member compares
unequal to every plain value, including its own `.value` string. -/
inductive ConversationState where
  | CONVERSING
  | FINISHED
  deriving DecidableEq, Repr

def conversingValue : String := "conversing"

def finishedValue : String := "finished"

/-- Modelled from the spec: the `.value` payload string of each
`ConversationState` member (the exact strings are not visible in src/; only
the member-versus-value distinction matters to the claims). -/
def ConversationState.value : ConversationState → String
  | ConversationState.CONVERSING => conversingValue
  | ConversationState.FINISHED => finishedValue

/-- A value stored under a dict key by the state-machine collaborator:
either an enum member or a plain string.  Equality of a member with any
string is false (plain `Enum` semantics, per the spec's data model). -/
inductive StateField where
  | member (s : ConversationState)
  | str (v : String)
  deriving DecidableEq, Repr

/-- The dict returned by the conversation-state-machine collaborator;
`current_state` is the value of `.get("current_state")` (none when the key
is absent). -/
structure StateMachineResult where
  current_state : Option StateField
  deriving DecidableEq, Repr

/-- `GreetingConversationConnector` state relevant to the claims: the owned
TTS provider, the last trigger timestamp and the estimated TTS duration. -/
structure GreetingConversationConnector where
  tts : KokoroTTSProvider
  tts_triggered_time : ℚ
  tts_duration : ℚ
  deriving DecidableEq, Repr

/-- `GreetingConversationConnector.__init__` (constructed at time `now`):
duration estimate starts at 0. -/
def GreetingConversationConnector.init (config : SpeakKokoroTTSConfig)
    (api_key : Option String) (now : ℚ) : GreetingConversationConnector :=
  let tts0 := KokoroTTSProvider.init kokoroBaseUrl api_key config.voice_id
    config.model_id config.output_format config.rate
    config.enable_tts_interrupt
  { tts := tts0.start, tts_triggered_time := now, tts_duration := 0 }

/-- `len(text.split())` in Python: split on whitespace runs, dropping empty
pieces. -/
def wordCount (s : String) : Nat :=
  ((s.split Char.isWhitespace).filter (fun w => w ≠ "")).length

/-- `GreetingConversationConnector.connect` (lines 111 to 146), called at
wall-clock time `now`; `processResult` is what
`greeting_state_provider.process_conversation` returned.  The second
component reports whether the shared context was notified of the finished
conversation (the check compares against the enum MEMBER
`ConversationState.FINISHED`). -/
def GreetingConversationConnector.connect
    (c : GreetingConversationConnector) (now : ℚ) (response_text : String)
    (processResult : StateMachineResult) :
    GreetingConversationConnector × Bool :=
  let tts1 := c.tts.add_pending_message (TTSMessage.text response_text)
  let word_count := wordCount response_text
  let c1 := { c with
    tts := tts1
    tts_duration := ((word_count : ℚ) / 100) * 60
    tts_triggered_time := now }
  (c1, decide (processResult.current_state =
    some (StateField.member ConversationState.FINISHED)))

/-- What one `tick()` call did: how many times
`update_state_without_llm` was invoked, and whether the shared context was
notified of the finished conversation. -/
structure TickResult where
  update_invocations : Nat
  finished_notified : Bool
  deriving DecidableEq, Repr

/-- `GreetingConversationConnector.tick` (lines 148 to 179), evaluated at
wall-clock time `now`; `state_update` is what
`greeting_state_provider.update_state_without_llm` would return if invoked.
The connector's own fields are not mutated by `tick`.  The finished check
here compares against the `.value` STRING of `ConversationState.FINISHED`. -/
def GreetingConversationConnector.tick (c : GreetingConversationConnector)
    (now : ℚ) (state_update : StateMachineResult) : TickResult :=
  if now - c.tts_triggered_time < c.tts_duration then
    { update_invocations := 0, finished_notified := false }
  else
    { update_invocations := 1
      finished_notified := decide (state_update.current_state =
        some (StateField.str ConversationState.FINISHED.value)) }

/-- Iterating `connect()` with a fixed prompt and action: the connector
state after `n` calls. -/
def connectIter (c : SpeakKokoroTTSConnector) (llm_prompt : Option String)
    (action : String) : Nat → SpeakKokoroTTSConnector
  | 0 => c
  | Nat.succ k =>
    ((connectIter c llm_prompt action k).connect llm_prompt action).1

/-- The Speak connector states reachable from construction with a given
configuration by any sequence of `connect()` calls (with arbitrary prompts
and actions at each call). -/
inductive SpeakReachable (cfg : SpeakKokoroTTSConfig)
    (api_key : Option String) (audio_pub : Bool) :
    SpeakKokoroTTSConnector → Prop where
  | init :
      SpeakReachable cfg api_key audio_pub
        (SpeakKokoroTTSConnector.init cfg api_key audio_pub)
  | connectStep (c : SpeakKokoroTTSConnector) (llm_prompt : Option String)
      (action : String) :
      SpeakReachable cfg api_key audio_pub c →
      SpeakReachable cfg api_key audio_pub (c.connect llm_prompt action).1

/-! Concrete sample values used by witnesses. -/

def voiceCustom : String := "custom_voice"

def sampleText : String := "hello world"

def promptHello : String := "The weather is nice today"

def frameA : String := "frame-a"

def reqIdA : String := "req-1"

def kokoroDefaultProvider : KokoroTTSProvider :=
  KokoroTTSProvider.init kokoroBaseUrl none voiceBella modelKokoro fmtPcm
    24000 false

def speakSample : SpeakKokoroTTSConnector :=
  { silence_rate := 2
    silence_counter := 0
    tts_enabled := true
    audio_pub := true
    tts := kokoroDefaultProvider }

def greetingSample : GreetingConversationConnector :=
  { tts := kokoroDefaultProvider
    tts_triggered_time := 0
    tts_duration := 5 }

def negRateConfig : SpeakKokoroTTSConfig :=
  { defaultSpeakKokoroTTSConfig with silence_rate := -1 }

def rate2Config : SpeakKokoroTTSConfig :=
  { defaultSpeakKokoroTTSConfig with silence_rate := 2 }

def reqEnable : TTSStatusRequest :=
  { header := prepare_header frameA
    request_id := reqIdA
    code := 1 }

def reqCode5 : TTSStatusRequest :=
  { header := prepare_header frameA
    request_id := reqIdA
    code := 5 }

def updNone : StateMachineResult := { current_state := none }

def finishedMemberResult : StateMachineResult :=
  { current_state := some (StateField.member ConversationState.FINISHED) }

/-! Helper lemmas shared by the claim theorems. -/

lemma promptIsVoice_eq_false (prompt : String)
    (hnv : promptIsNonVoice (some prompt) = true) :
    promptIsVoice (some prompt) = false := by
  simp only [promptIsNonVoice, Bool.not_eq_true'] at hnv
  simpa [promptIsVoice] using hnv

lemma connect_skip (c : SpeakKokoroTTSConnector) (llm_prompt : Option String)
    (action : String) (hen : c.tts_enabled = true) (hr : 0 < c.silence_rate)
    (hc : c.silence_counter < c.silence_rate)
    (hnv : promptIsNonVoice llm_prompt = true) :
    c.connect llm_prompt action =
      ({ c with silence_counter := c.silence_counter + 1 },
        ConnectEffect.skipped) := by
  unfold SpeakKokoroTTSConnector.connect
  rw [if_neg (by simp [hen]), if_pos ⟨hr, hc, hnv⟩]

lemma connect_accept (c : SpeakKokoroTTSConnector) (llm_prompt : Option String)
    (action : String) (hen : c.tts_enabled = true)
    (hskip : ¬ (c.silence_rate > 0 ∧ c.silence_counter < c.silence_rate ∧
      promptIsNonVoice llm_prompt = true)) :
    (c.connect llm_prompt action).1.silence_counter = 0 ∧
    (c.connect llm_prompt action).1.silence_rate = c.silence_rate ∧
    (c.connect llm_prompt action).2 =
      ConnectEffect.accepted (c.tts.create_pending_message action)
        (promptIsVoice llm_prompt) c.audio_pub := by
  unfold SpeakKokoroTTSConnector.connect
  rw [if_neg (by simp [hen]), if_neg hskip]
  by_cases hap : c.audio_pub = true
  · simp [hap]
  · simp only [Bool.not_eq_true] at hap
    simp [hap]

lemma connectIter_skip (c : SpeakKokoroTTSConnector) (prompt action : String)
    (N : Nat) (hen : c.tts_enabled = true) (hc0 : c.silence_counter = 0)
    (hr : c.silence_rate = (N : Int))
    (hnv : promptIsNonVoice (some prompt) = true) :
    ∀ i : Nat, i ≤ N →
      connectIter c (some prompt) action i =
        { c with silence_counter := (i : Int) } := by
  intro i
  induction i with
  | zero =>
    intro _
    simp only [connectIter, Nat.cast_zero]
    rw [← hc0]
  | succ k ih =>
    intro hik
    have hk : k ≤ N := Nat.le_of_succ_le hik
    have hkN : k < N := Nat.lt_of_succ_le hik
    have hNpos : (0 : Int) < (N : Int) := by
      exact_mod_cast Nat.lt_of_le_of_lt (Nat.zero_le k) hkN
    have hrate :
        (0 : Int) <
          ({ c with silence_counter := (k : Int) } :
            SpeakKokoroTTSConnector).silence_rate := by
      show (0 : Int) < c.silence_rate
      rw [hr]
      exact hNpos
    have hcnt :
        ({ c with silence_counter := (k : Int) } :
            SpeakKokoroTTSConnector).silence_counter <
          ({ c with silence_counter := (k : Int) } :
            SpeakKokoroTTSConnector).silence_rate := by
      show (k : Int) < c.silence_rate
      rw [hr]
      exact_mod_cast hkN
    rw [connectIter, ih hk,
      connect_skip ({ c with silence_counter := (k : Int) })
        (some prompt) action hen hrate hcnt hnv]
    rfl

lemma speak_silence_inv (cfg : SpeakKokoroTTSConfig) (api_key : Option String)
    (audio_pub : Bool) (hr : 0 ≤ cfg.silence_rate) :
    ∀ c : SpeakKokoroTTSConnector, SpeakReachable cfg api_key audio_pub c →
      c.silence_rate = cfg.silence_rate ∧ 0 ≤ c.silence_counter ∧
        c.silence_counter ≤ c.silence_rate := by
  intro c hc
  induction hc with
  | init => exact ⟨rfl, le_refl 0, hr⟩
  | connectStep c llm_prompt action hstep ih =>
    obtain ⟨h1, h2, h3⟩ := ih
    unfold SpeakKokoroTTSConnector.connect
    by_cases hen : c.tts_enabled = false
    · rw [if_pos hen]
      exact ⟨h1, h2, h3⟩
    rw [if_neg hen]
    by_cases hskip : c.silence_rate > 0 ∧ c.silence_counter < c.silence_rate ∧
      promptIsNonVoice llm_prompt = true
    · rw [if_pos hskip]
      obtain ⟨-, hlt, -⟩ := hskip
      refine ⟨h1, ?_, ?_⟩
      · show (0 : Int) ≤ c.silence_counter + 1
        omega
      · show c.silence_counter + 1 ≤ c.silence_rate
        omega
    · rw [if_neg hskip]
      by_cases hap : ({ c with silence_counter := (0 : Int) }).audio_pub = true
      · rw [if_pos hap]
        exact ⟨h1, le_refl 0, h1 ▸ hr⟩
      · rw [if_neg hap]
        exact ⟨h1, le_refl 0, h1 ▸ hr⟩

/-- C1: the claim states that a change in ANY field, INCLUDING the sample
rate, triggers a restart.  False: `restart_needed` does not compare `rate`,
so configuring the default provider with only the rate changed (24000 to
48000) returns the provider completely unchanged — same stream object, old
rate still active. -/
theorem C1_counterexample :
    kokoroDefaultProvider._audio_stream.rate = 24000 ∧
    kokoroDefaultProvider.configure kokoroBaseUrl none voiceBella modelKokoro
      fmtPcm 48000 false = kokoroDefaultProvider := by
  constructor
  · rfl
  · rfl

/-- C1 (amended): configure() is a no-op (stream identity unchanged) iff
none of url, api_key, voice_id, model_id, output_format and
enable_tts_interrupt differ from the active configuration — the sample
rate is NOT compared.  When any of those differ, the stream is replaced by
a freshly constructed started stream carrying the new parameters
(including the new rate) and the provider's configuration fields equal the
new values. -/
theorem C1_amended (p : KokoroTTSProvider) (url : String)
    (api_key : Option String) (voice_id model_id output_format : String)
    (rate : Int) (eti : Bool) :
    (¬ restartNeeded p url api_key voice_id model_id output_format eti →
      p.configure url api_key voice_id model_id output_format rate eti = p) ∧
    (restartNeeded p url api_key voice_id model_id output_format eti →
      (p.configure url api_key voice_id model_id output_format rate
          eti).api_key = api_key ∧
      (p.configure url api_key voice_id model_id output_format rate
          eti)._voice_id = voice_id ∧
      (p.configure url api_key voice_id model_id output_format rate
          eti)._model_id = model_id ∧
      (p.configure url api_key voice_id model_id output_format rate
          eti)._output_format = output_format ∧
      (p.configure url api_key voice_id model_id output_format rate
          eti)._enable_tts_interrupt = eti ∧
      (p.configure url api_key voice_id model_id output_format rate
          eti)._audio_stream._url = url ∧
      (p.configure url api_key voice_id model_id output_format rate
          eti)._audio_stream.rate = rate ∧
      (p.configure url api_key voice_id model_id output_format rate
          eti)._audio_stream.started = true ∧
      (p.configure url api_key voice_id model_id output_format rate
          eti)._audio_stream.sid = p._audio_stream.sid + 1) := by
  constructor
  · intro h
    unfold KokoroTTSProvider.configure
    rw [if_neg h]
  · intro h
    unfold KokoroTTSProvider.configure
    rw [if_pos h]
    exact ⟨rfl, rfl, rfl, rfl, rfl, rfl, rfl, rfl, rfl⟩

/-- Witness for C1 (amended): configuring the default provider with a new
voice restarts and applies the new voice. -/
theorem C1_amended_witness :
    (kokoroDefaultProvider.configure kokoroBaseUrl none voiceCustom
      modelKokoro fmtPcm 24000 false)._voice_id = voiceCustom :=
  ((C1_amended kokoroDefaultProvider kokoroBaseUrl none voiceCustom
    modelKokoro fmtPcm 24000 false).2 (by decide)).2.1

/-- C2: the claim states that after a configuration change while running,
the provider is running again.  False: configure() stops the provider and
starts only the new stream object without setting `running` back, so
`running` is false afterwards and a subsequent add_pending_message is
dropped (the provider state, in particular the queue, is unchanged by it).
This matches the repository's own test
(test_configure_with_changes_while_running asserts `running is False`). -/
theorem C2_counterexample :
    (kokoroDefaultProvider.start).running = true ∧
    ((kokoroDefaultProvider.start).configure kokoroBaseUrl none voiceCustom
      modelKokoro fmtPcm 24000 false).running = false ∧
    (((kokoroDefaultProvider.start).configure kokoroBaseUrl none voiceCustom
      modelKokoro fmtPcm 24000 false).add_pending_message
        (TTSMessage.text sampleText)) =
      ((kokoroDefaultProvider.start).configure kokoroBaseUrl none voiceCustom
        modelKokoro fmtPcm 24000 false) := by
  refine ⟨rfl, rfl, rfl⟩

/-- C2 (amended): when configure() is called with a configuration that
differs (in a compared field) while the provider is running, the running
flag transitions true→false: after the call the provider is NOT running
(although the new stream object itself is started), and every
add_pending_message call made afterwards is dropped. -/
theorem C2_amended (p : KokoroTTSProvider) (url : String)
    (api_key : Option String) (voice_id model_id output_format : String)
    (rate : Int) (eti : Bool) (hrun : p.running = true)
    (hdiff : restartNeeded p url api_key voice_id model_id output_format
      eti) :
    (p.configure url api_key voice_id model_id output_format rate
      eti).running = false ∧
    (p.configure url api_key voice_id model_id output_format rate
      eti)._audio_stream.started = true ∧
    ∀ m : TTSMessage,
      (p.configure url api_key voice_id model_id output_format rate
        eti).add_pending_message m =
      p.configure url api_key voice_id model_id output_format rate eti := by
  have hrunning : (p.configure url api_key voice_id model_id output_format
      rate eti).running = false := by
    unfold KokoroTTSProvider.configure
    rw [if_pos hdiff]
    show (if p.running then p.stop else p).running = false
    rw [if_pos (by rw [hrun])]
    unfold KokoroTTSProvider.stop
    rw [if_neg (by simp [hrun])]
  refine ⟨hrunning, ?_, ?_⟩
  · unfold KokoroTTSProvider.configure
    rw [if_pos hdiff]
    rfl
  · intro m
    unfold KokoroTTSProvider.add_pending_message
    rw [if_pos hrunning]

/-- Witness for C2 (amended) at a concrete running provider and a changed
voice. -/
theorem C2_amended_witness :
    ((kokoroDefaultProvider.start).configure kokoroBaseUrl none voiceCustom
      modelKokoro fmtPcm 48000 true).running = false :=
  (C2_amended kokoroDefaultProvider.start kokoroBaseUrl none voiceCustom
    modelKokoro fmtPcm 48000 true rfl (by decide)).1

/-- C3: silence-rate property of the Speak connector.  Starting from a
connector with TTS enabled, silence_counter 0 and silence_rate N > 0, a
sequence of non-voice-triggered connect() calls (llm_prompt set, voice
marker absent) behaves as claimed: each of the first N calls is skipped
(no pending message created) with the counter stepping through 1..N, and
the (N+1)-th call is accepted — exactly one pending message is created —
with the counter reset to 0. -/
theorem C3_theorem (c : SpeakKokoroTTSConnector) (N : Nat)
    (prompt action : String) (hen : c.tts_enabled = true)
    (hc0 : c.silence_counter = 0) (hr : c.silence_rate = (N : Int))
    (hN : 0 < N) (hnv : promptIsNonVoice (some prompt) = true) :
    (∀ i : Nat, i < N →
      ((connectIter c (some prompt) action i).connect (some prompt)
        action).2 = ConnectEffect.skipped ∧
      (connectIter c (some prompt) action (i + 1)).silence_counter =
        (i : Int) + 1) ∧
    ((connectIter c (some prompt) action N).connect (some prompt)
      action).2 =
      ConnectEffect.accepted (c.tts.create_pending_message action) false
        c.audio_pub ∧
    ((connectIter c (some prompt) action N).connect (some prompt)
      action).1.silence_counter = 0 := by
  have hiter := connectIter_skip c prompt action N hen hc0 hr hnv
  have hstate : ∀ i : Nat, i ≤ N →
      connectIter c (some prompt) action i =
        { c with silence_counter := (i : Int) } := hiter
  refine ⟨?_, ?_, ?_⟩
  · intro i hi
    have hrate : (0 : Int) <
        ({ c with silence_counter := (i : Int) } :
          SpeakKokoroTTSConnector).silence_rate := by
      show (0 : Int) < c.silence_rate
      rw [hr]
      exact_mod_cast hN
    have hcnt :
        ({ c with silence_counter := (i : Int) } :
            SpeakKokoroTTSConnector).silence_counter <
          ({ c with silence_counter := (i : Int) } :
            SpeakKokoroTTSConnector).silence_rate := by
      show (i : Int) < c.silence_rate
      rw [hr]
      exact_mod_cast hi
    constructor
    · rw [hstate i (Nat.le_of_lt hi),
        connect_skip ({ c with silence_counter := (i : Int) })
          (some prompt) action hen hrate hcnt hnv]
    · rw [hstate (i + 1) (Nat.succ_le_of_lt hi)]
      rfl
  · rw [hstate N (Nat.le_refl N)]
    have hskip : ¬ (({ c with silence_counter := (N : Int) } :
          SpeakKokoroTTSConnector).silence_rate > 0 ∧
        ({ c with silence_counter := (N : Int) } :
          SpeakKokoroTTSConnector).silence_counter <
          ({ c with silence_counter := (N : Int) } :
            SpeakKokoroTTSConnector).silence_rate ∧
        promptIsNonVoice (some prompt) = true) := by
      rintro ⟨-, hlt, -⟩
      rw [show ({ c with silence_counter := (N : Int) } :
        SpeakKokoroTTSConnector).silence_rate = c.silence_rate from rfl,
        hr] at hlt
      exact absurd hlt (lt_irrefl _)
    have hacc := connect_accept ({ c with silence_counter := (N : Int) })
      (some prompt) action hen hskip
    rw [hacc.2.2, promptIsVoice_eq_false prompt hnv]
  · rw [hstate N (Nat.le_refl N)]
    have hskip : ¬ (({ c with silence_counter := (N : Int) } :
          SpeakKokoroTTSConnector).silence_rate > 0 ∧
        ({ c with silence_counter := (N : Int) } :
          SpeakKokoroTTSConnector).silence_counter <
          ({ c with silence_counter := (N : Int) } :
            SpeakKokoroTTSConnector).silence_rate ∧
        promptIsNonVoice (some prompt) = true) := by
      rintro ⟨-, hlt, -⟩
      rw [show ({ c with silence_counter := (N : Int) } :
        SpeakKokoroTTSConnector).silence_rate = c.silence_rate from rfl,
        hr] at hlt
      exact absurd hlt (lt_irrefl _)
    exact (connect_accept ({ c with silence_counter := (N : Int) })
      (some prompt) action hen hskip).1

/-- Witness for C3: silence_rate 2, three non-voice connect() calls; the
third is accepted with the counter back at 0, and the second call was a
skip. -/
theorem C3_witness :
    ((connectIter speakSample (some promptHello) sampleText 2).connect
      (some promptHello) sampleText).1.silence_counter = 0 ∧
    ((connectIter speakSample (some promptHello) sampleText 1).connect
      (some promptHello) sampleText).2 = ConnectEffect.skipped :=
  ⟨(C3_theorem speakSample 2 promptHello sampleText rfl rfl rfl
      (by decide) (by decide)).2.2,
    ((C3_theorem speakSample 2 promptHello sampleText rfl rfl rfl
      (by decide) (by decide)).1 1 (by decide)).1⟩

/-- C4: Greeting connector tick gating.  At any tick evaluated at time
`now`, if the elapsed time since the last trigger is strictly below the
estimated duration, update_state_without_llm is not invoked at all;
otherwise it is invoked exactly once.  The estimated duration recorded by
connect() equals word_count / 100 * 60 seconds of the accepted response
text. -/
theorem C4_theorem (c : GreetingConversationConnector) (now : ℚ)
    (upd : StateMachineResult) (text : String) (res : StateMachineResult) :
    (now - c.tts_triggered_time < c.tts_duration →
      (c.tick now upd).update_invocations = 0) ∧
    (c.tts_duration ≤ now - c.tts_triggered_time →
      (c.tick now upd).update_invocations = 1) ∧
    (c.connect now text res).1.tts_duration =
      ((wordCount text : ℚ) / 100) * 60 := by
  refine ⟨?_, ?_, rfl⟩
  · intro h
    unfold GreetingConversationConnector.tick
    rw [if_pos h]
  · intro h
    unfold GreetingConversationConnector.tick
    rw [if_neg (not_lt.mpr h)]

/-- Witness for C4 at concrete times: trigger 0, duration 5; tick at 1 is
gated, tick at 5 invokes the update once. -/
theorem C4_witness :
    (greetingSample.tick 1 updNone).update_invocations = 0 ∧
    (greetingSample.tick 5 updNone).update_invocations = 1 :=
  ⟨(C4_theorem greetingSample 1 updNone sampleText updNone).1
      (by simp [greetingSample]),
    (C4_theorem greetingSample 5 updNone sampleText updNone).2.1
      (by simp [greetingSample])⟩

/-- C5: add_pending_message while not running drops the message without
any state change: the provider is returned unchanged (so in particular the
backend queue depth is unchanged). -/
theorem C5_theorem (p : KokoroTTSProvider) (m : TTSMessage)
    (h : p.running = false) :
    p.add_pending_message m = p ∧
    (p.add_pending_message m).get_pending_message_count =
      p.get_pending_message_count := by
  have he : p.add_pending_message m = p := by
    unfold KokoroTTSProvider.add_pending_message
    rw [if_pos h]
  exact ⟨he, by rw [he]⟩

/-- Witness for C5: the freshly initialized provider is not running; a
text message is dropped. -/
theorem C5_witness :
    kokoroDefaultProvider.add_pending_message (TTSMessage.text sampleText) =
      kokoroDefaultProvider :=
  (C5_theorem kokoroDefaultProvider (TTSMessage.text sampleText) rfl).1

/-- C6: the claim asserts 0 ≤ silence_counter ≤ silence_rate at every
reachable state for ANY configured silence_rate.  False: the configuration
does not constrain silence_rate to be nonnegative, and with silence_rate
configured to -1 the initial state already violates the upper bound
(counter 0 is not ≤ -1). -/
theorem C6_counterexample :
    SpeakReachable negRateConfig none true
      (SpeakKokoroTTSConnector.init negRateConfig none true) ∧
    ¬ ((SpeakKokoroTTSConnector.init negRateConfig none
        true).silence_counter ≤
      (SpeakKokoroTTSConnector.init negRateConfig none true).silence_rate) :=
  ⟨SpeakReachable.init, by decide⟩

/-- C6 (amended): for every configuration whose silence_rate is
nonnegative, every state reachable from construction by connect() calls
satisfies 0 ≤ silence_counter ≤ silence_rate. -/
theorem C6_amended (cfg : SpeakKokoroTTSConfig) (api_key : Option String)
    (audio_pub : Bool) (c : SpeakKokoroTTSConnector)
    (hr : 0 ≤ cfg.silence_rate)
    (hc : SpeakReachable cfg api_key audio_pub c) :
    0 ≤ c.silence_counter ∧ c.silence_counter ≤ c.silence_rate :=
  ⟨(speak_silence_inv cfg api_key audio_pub hr c hc).2.1,
    (speak_silence_inv cfg api_key audio_pub hr c hc).2.2⟩

/-- Witness for C6 (amended) at the initial state of a silence_rate-2
configuration. -/
theorem C6_amended_witness :
    0 ≤ (SpeakKokoroTTSConnector.init rate2Config none
        true).silence_counter ∧
      (SpeakKokoroTTSConnector.init rate2Config none true).silence_counter ≤
        (SpeakKokoroTTSConnector.init rate2Config none true).silence_rate :=
  C6_amended rate2Config none true
    (SpeakKokoroTTSConnector.init rate2Config none true) (by decide)
    SpeakReachable.init

/-- C7: control-plane protocol.  Code 2 leaves the connector (hence
tts_enabled) unchanged and publishes the current state; code 1 sets
tts_enabled true with a confirmation; code 0 sets it false with a
confirmation; and every published response echoes the request's header
frame identifier and request_id.  At most one response per request is
expressed by the handler returning an `Option` response. -/
theorem C7_theorem (c : SpeakKokoroTTSConnector) (req : TTSStatusRequest) :
    (req.code = 2 →
      (c.zenoh_tts_status_request req).1 = c ∧
      (c.zenoh_tts_status_request req).2 = some
        { header := prepare_header req.header.frame_id
          request_id := req.request_id
          code := if c.tts_enabled then 1 else 0
          status := if c.tts_enabled then ttsEnabledText
            else ttsDisabledText }) ∧
    (req.code = 1 →
      (c.zenoh_tts_status_request req).1 =
        { c with tts_enabled := true } ∧
      (c.zenoh_tts_status_request req).2 = some
        { header := prepare_header req.header.frame_id
          request_id := req.request_id
          code := 1
          status := ttsEnabledText }) ∧
    (req.code = 0 →
      (c.zenoh_tts_status_request req).1 =
        { c with tts_enabled := false } ∧
      (c.zenoh_tts_status_request req).2 = some
        { header := prepare_header req.header.frame_id
          request_id := req.request_id
          code := 0
          status := ttsDisabledText }) ∧
    (∀ resp : TTSStatusResponse,
      (c.zenoh_tts_status_request req).2 = some resp →
        resp.header.frame_id = req.header.frame_id ∧
        resp.request_id = req.request_id) := by
  refine ⟨?_, ?_, ?_, ?_⟩
  · intro h
    unfold SpeakKokoroTTSConnector.zenoh_tts_status_request
    rw [if_pos h]
    exact ⟨rfl, rfl⟩
  · intro h
    unfold SpeakKokoroTTSConnector.zenoh_tts_status_request
    rw [if_neg (by rw [h]; decide), if_pos h]
    exact ⟨rfl, rfl⟩
  · intro h
    unfold SpeakKokoroTTSConnector.zenoh_tts_status_request
    rw [if_neg (by rw [h]; decide), if_neg (by rw [h]; decide), if_pos h]
    exact ⟨rfl, rfl⟩
  · intro resp hresp
    unfold SpeakKokoroTTSConnector.zenoh_tts_status_request at hresp
    by_cases h2 : req.code = 2
    · rw [if_pos h2] at hresp
      simp only [Option.some.injEq] at hresp
      rw [← hresp]
      exact ⟨rfl, rfl⟩
    rw [if_neg h2] at hresp
    by_cases h1 : req.code = 1
    · rw [if_pos h1] at hresp
      simp only [Option.some.injEq] at hresp
      rw [← hresp]
      exact ⟨rfl, rfl⟩
    rw [if_neg h1] at hresp
    by_cases h0 : req.code = 0
    · rw [if_pos h0] at hresp
      simp only [Option.some.injEq] at hresp
      rw [← hresp]
      exact ⟨rfl, rfl⟩
    rw [if_neg h0] at hresp
    exact absurd hresp (by simp)

/-- Witness for C7: an enable request (code 1) sets tts_enabled and the
response echoes the request's frame id. -/
theorem C7_witness :
    (speakSample.zenoh_tts_status_request reqEnable).1 =
      { speakSample with tts_enabled := true } ∧
    ∀ resp : TTSStatusResponse,
      (speakSample.zenoh_tts_status_request reqEnable).2 = some resp →
        resp.header.frame_id = reqEnable.header.frame_id ∧
        resp.request_id = reqEnable.request_id :=
  ⟨((C7_theorem speakSample reqEnable).2.1 rfl).1,
    (C7_theorem speakSample reqEnable).2.2.2⟩

/-- C8: a connect() call with TTS enabled and llm_prompt None never takes
the silence skip branch: the request is accepted (exactly one pending
message created, not stored to history) and silence_counter is reset to 0,
whatever silence_rate and silence_counter currently are. -/
theorem C8_theorem (c : SpeakKokoroTTSConnector) (action : String)
    (hen : c.tts_enabled = true) :
    (c.connect none action).1.silence_counter = 0 ∧
    (c.connect none action).2 =
      ConnectEffect.accepted (c.tts.create_pending_message action) false
        c.audio_pub := by
  have hskip : ¬ (c.silence_rate > 0 ∧
      c.silence_counter < c.silence_rate ∧
      promptIsNonVoice none = true) := by
    rintro ⟨-, -, hv⟩
    exact absurd hv (by decide)
  have hacc := connect_accept c none action hen hskip
  exact ⟨hacc.1, hacc.2.2⟩

/-- Witness for C8 on a connector with silence_rate 2 and counter 0. -/
theorem C8_witness :
    (speakSample.connect none sampleText).1.silence_counter = 0 :=
  (C8_theorem speakSample sampleText rfl).1

/-- C9: the two finished checks differ.  connect() compares the state
machine's current_state against the ConversationState.FINISHED enum
member, while tick() compares against its .value string; for a result
whose current_state IS the enum member, connect() notifies the shared
context and tick() does not (whether or not the tick was gated). -/
theorem C9_theorem (c : GreetingConversationConnector) (now : ℚ)
    (text : String) (res : StateMachineResult)
    (hres : res.current_state =
      some (StateField.member ConversationState.FINISHED)) :
    (c.connect now text res).2 = true ∧
    (c.tick now res).finished_notified = false := by
  constructor
  · show decide (res.current_state =
      some (StateField.member ConversationState.FINISHED)) = true
    rw [hres]
    decide
  · unfold GreetingConversationConnector.tick
    by_cases h : now - c.tts_triggered_time < c.tts_duration
    · rw [if_pos h]
    · rw [if_neg h]
      show decide (res.current_state =
        some (StateField.str ConversationState.FINISHED.value)) = false
      rw [hres]
      decide

/-- Witness for C9: a finished enum-member result makes connect() notify
while tick() does not. -/
theorem C9_witness :
    (greetingSample.connect 0 sampleText finishedMemberResult).2 = true ∧
    (greetingSample.tick 0 finishedMemberResult).finished_notified =
      false :=
  C9_theorem greetingSample 0 sampleText finishedMemberResult rfl

/-- C10: a control request whose code is none of 0, 1, 2 produces no
response and leaves the connector state unchanged. -/
theorem C10_theorem (c : SpeakKokoroTTSConnector) (req : TTSStatusRequest)
    (h0 : req.code ≠ 0) (h1 : req.code ≠ 1) (h2 : req.code ≠ 2) :
    c.zenoh_tts_status_request req = (c, none) := by
  unfold SpeakKokoroTTSConnector.zenoh_tts_status_request
  rw [if_neg h2, if_neg h1, if_neg h0]

/-- Witness for C10 with code 5. -/
theorem C10_witness :
    speakSample.zenoh_tts_status_request reqCode5 = (speakSample, none) :=
  C10_theorem speakSample reqCode5 (by decide) (by decide) (by decide)
